import Mathlib

/-
  Verification of the AI-Model-Hallucination-Tracker core
  (src/hallucination_detector.py and src/scoring.py).

  Shallow embedding notes:
  * pandas cells are modelled by `Value`, including missing data
    (`vNaN` for float NaN, `vNone` for Python None).
  * A DataFrame is a list of column names plus a list of rows, each row a
    list of cell values aligned with the column names.
  * Python/numpy floats are modelled by rationals.  Every score that
    `score_response` can produce is a sum drawn from {0.4, 0.2, 0.3}; one
    checks that for each of the 8 reachable IEEE-754 sums the comparisons
    with 0.6 / 0.4 and the 2-decimal rounding of 1 - score agree with the
    exact rational results, so the rational model is observationally
    faithful to the Python code.
  * `round(x, 2)` in Python and `.round(2)` in pandas/numpy round half to
    even; `round2` below implements that rule on rationals.
-/

namespace Tracker

/-- A pandas/Python cell value. -/
inductive Value where
  | vStr : String → Value
  | vInt : Int → Value
  | vRat : Rat → Value
  | vNone : Value
  | vNaN : Value
  deriving DecidableEq, Repr

/-- Python `str(x)` as applied to the cell values we model
    (`str(nan) = "nan"`, `str(None) = "None"`). -/
def pyStr : Value → String
  | .vStr s => s
  | .vInt n => toString n
  | .vRat q => toString q
  | .vNone => "None"
  | .vNaN => "nan"

/-- pandas missing-data test (`isna`): NaN and None are missing. -/
def isNA : Value → Bool
  | .vNaN => true
  | .vNone => true
  | _ => false

/-- Numeric view of a cell, when it has one. -/
def asRat : Value → Option Rat
  | .vInt n => some (n : Rat)
  | .vRat q => some q
  | _ => none

/-- Round a rational to the nearest integer, ties to even
    (the rule used by Python `round` and numpy). -/
def roundHalfEvenZ (q : Rat) : Int :=
  if q - (⌊q⌋ : Rat) < 1/2 then ⌊q⌋
  else if (1 : Rat)/2 < q - (⌊q⌋ : Rat) then ⌊q⌋ + 1
  else if ⌊q⌋ % 2 = 0 then ⌊q⌋ else ⌊q⌋ + 1

/-- Python `round(x, 2)`: round half to even at two decimal places. -/
def round2 (q : Rat) : Rat := (roundHalfEvenZ (q * 100) : Rat) / 100

/-! ## Detector (src/hallucination_detector.py) -/

/-- The configured uncertainty phrases (`HallucinationDetector.__init__`). -/
def uncertainty_phrases : List String :=
  ["i think", "it seems", "possibly", "might be",
   "not sure", "approximately", "around", "estimated"]

/-- Tests whether `needle` is a leading segment of `hay`. -/
def leadsWith : List Char → List Char → Bool
  | [], _ => true
  | _ :: _, [] => false
  | a :: as, b :: bs => decide (a = b) && leadsWith as bs

/-- Python substring containment (`needle in hay`) on character lists. -/
def containsSub (needle : List Char) : List Char → Bool
  | [] => leadsWith needle []
  | b :: bs => leadsWith needle (b :: bs) || containsSub needle bs

/-- Python `.lower()` on a character list. -/
def lowerChars (l : List Char) : List Char := l.map Char.toLower

/-- Python `.strip()` on a character list. -/
def stripChars (l : List Char) : List Char :=
  ((l.dropWhile Char.isWhitespace).reverse.dropWhile Char.isWhitespace).reverse

/-- Source `HallucinationDetector.contains_uncertainty`: the lowercased text
    contains some configured phrase as a substring. -/
def contains_uncertainty (text : List Char) : Bool :=
  uncertainty_phrases.any (fun phrase => containsSub phrase.toList (lowerChars text))

/-- Source `HallucinationDetector.has_numeric_claim`: `re.search(r"\d", text)`,
    i.e. the text contains a digit character. -/
def has_numeric_claim (text : List Char) : Bool :=
  text.any Char.isDigit

/-- The normalization at the top of `score_response`:
    `str(response_text).strip().lower()`. -/
def pyNormalize (s : String) : List Char :=
  lowerChars (stripChars s.toList)

/-- The hallucination score accumulated by `score_response` before the
    clamp: +0.4 for an uncertainty phrase, +0.2 for a digit, +0.3 for
    normalized length under 30. -/
def rawScore (t : List Char) : Rat :=
  (if contains_uncertainty t then (4 : Rat)/10 else 0)
    + (if has_numeric_claim t then (2 : Rat)/10 else 0)
    + (if t.length < 30 then (3 : Rat)/10 else 0)

/-- Source `HallucinationDetector.score_response`, returning
    (hallucination_flag, confidence_score, final_label). -/
def score_response (v : Value) : Int × Rat × String :=
  let t := pyNormalize (pyStr v)
  let score := min (rawScore t) 1
  let conf := round2 (1 - score)
  if score ≥ 6/10 then (1, conf, "hallucinated")
  else if score ≥ 4/10 then (0, conf, "uncertain")
  else (0, conf, "accurate")

/-! ## DataFrame model -/

/-- A pandas DataFrame: named columns and rows of cells aligned with the
    column-name list. -/
structure DataFrame where
  cols : List String
  rows : List (List Value)
  deriving DecidableEq, Repr

/-- Read the cell of column `c` in a row (NaN when absent, matching
    pandas semantics for data missing from a row). -/
def getCellD (cols : List String) (row : List Value) (c : String) : Value :=
  (row.get? (cols.indexOf c)).getD Value.vNaN

/-- Column names after `df[c] = ...`: unchanged when `c` exists,
    appended otherwise. -/
def setColName (cols : List String) (c : String) : List String :=
  if c ∈ cols then cols else cols ++ [c]

/-- Row contents after `df[c] = ...`: overwrite in place when `c` exists,
    append at the end otherwise. -/
def setCell (cols : List String) (c : String) (row : List Value) (v : Value) :
    List Value :=
  if c ∈ cols then row.set (cols.indexOf c) v else row ++ [v]

/-- Source `HallucinationDetector.analyze_dataframe`: checks for the
    `response_text` column, then scores every row and assigns the
    `hallucination_flag`, `confidence_score` and `final_label` columns. -/
def analyze_dataframe (df : DataFrame) : Except String DataFrame :=
  if "response_text" ∈ df.cols then
    let c1 := setColName df.cols "hallucination_flag"
    let c2 := setColName c1 "confidence_score"
    Except.ok
      { cols := setColName c2 "final_label"
        rows := df.rows.map (fun r =>
          let out := score_response (getCellD df.cols r "response_text")
          let r1 := setCell df.cols "hallucination_flag" r (.vInt out.1)
          let r2 := setCell c1 "confidence_score" r1 (.vRat out.2.1)
          setCell c2 "final_label" r2 (.vStr out.2.2)) }
  else Except.error "DataFrame must contain response_text column"

/-! ## Scorer (src/scoring.py) -/

/-- Source `HallucinationScorer.compute_final_score`: requires the
    `hallucination_flag`, `confidence_score` and `final_label` columns,
    then assigns
    `hallucination_risk_score = ((1 - confidence_score) + flag * 0.5).round(2)`
    on every row.  A row whose operands are non-numeric yields NaN. -/
def compute_final_score (df : DataFrame) : Except String DataFrame :=
  if "hallucination_flag" ∈ df.cols ∧ "confidence_score" ∈ df.cols ∧
      "final_label" ∈ df.cols then
    Except.ok
      { cols := setColName df.cols "hallucination_risk_score"
        rows := df.rows.map (fun r =>
          setCell df.cols "hallucination_risk_score" r
            (match asRat (getCellD df.cols r "confidence_score"),
                   asRat (getCellD df.cols r "hallucination_flag") with
             | some c, some f => Value.vRat (round2 ((1 - c) + f * (1/2)))
             | _, _ => Value.vNaN)) }
  else
    Except.error
      "DataFrame must contain columns: hallucination_flag, confidence_score, final_label"

/-- The `model_name` column of a frame. -/
def modelCol (df : DataFrame) : List Value :=
  df.rows.map (fun r => getCellD df.cols r "model_name")

/-- The group keys of `groupby("model_name")`: distinct non-missing
    values of the column (pandas drops NaN group keys). -/
def groupKeys (df : DataFrame) : List Value :=
  ((modelCol df).filter (fun v => !(isNA v))).dedup

/-- The rows of the group with key `k`. -/
def groupRows (df : DataFrame) (k : Value) : List (List Value) :=
  df.rows.filter (fun r => decide (getCellD df.cols r "model_name" = k))

/-- Column names of the summary frame after `reset_index()`. -/
def summaryCols : List String :=
  ["model_name", "total_responses", "hallucinated_count", "uncertain_count",
   "avg_confidence_score", "avg_risk_score", "hallucination_rate"]

/-- The `final_label` cells of a group. -/
def labelsOf (cols : List String) (g : List (List Value)) : List Value :=
  g.map (fun r => getCellD cols r "final_label")

/-- Aggregation `("final_label", "count")`: pandas counts the non-missing labels. -/
def totalCount (cols : List String) (g : List (List Value)) : Nat :=
  (labelsOf cols g).countP (fun v => !(isNA v))

/-- Aggregation `(x == "hallucinated").sum()` over a group's labels. -/
def hallCount (cols : List String) (g : List (List Value)) : Nat :=
  (labelsOf cols g).countP (fun v => decide (v = Value.vStr "hallucinated"))

/-- Aggregation `(x == "uncertain").sum()` over a group's labels. -/
def uncCount (cols : List String) (g : List (List Value)) : Nat :=
  (labelsOf cols g).countP (fun v => decide (v = Value.vStr "uncertain"))

/-- pandas `mean` of the numeric cells (NaN on an empty list, as pandas
    gives for the mean of no values). -/
def meanOf (l : List Rat) : Value :=
  if l.length = 0 then Value.vNaN else Value.vRat (l.sum / (l.length : Rat))

/-- One summary row: the named aggregations of `generate_model_summary`
    over a group, plus `hallucination_rate = (hallucinated/total).round(2)`
    (NaN on an empty count, as pandas produces for 0/0). -/
def summaryRow (cols : List String) (k : Value) (g : List (List Value)) :
    List Value :=
  [ k, .vInt (totalCount cols g), .vInt (hallCount cols g), .vInt (uncCount cols g),
    meanOf (g.filterMap (fun r => asRat (getCellD cols r "confidence_score"))),
    meanOf (g.filterMap (fun r => asRat (getCellD cols r "hallucination_risk_score"))),
    if totalCount cols g = 0 then Value.vNaN
    else .vRat (round2 ((hallCount cols g : Rat) / (totalCount cols g : Rat))) ]

/-- Source `HallucinationScorer.generate_model_summary`: requires `model_name`;
    the subsequent `.agg` raises a KeyError (a different error) when the
    aggregated columns are structurally absent; otherwise it produces one
    summary row per group key. -/
def generate_model_summary (df : DataFrame) : Except String DataFrame :=
  if "model_name" ∈ df.cols then
    if "final_label" ∈ df.cols ∧ "confidence_score" ∈ df.cols ∧
        "hallucination_risk_score" ∈ df.cols then
      Except.ok
        { cols := summaryCols
          rows := (groupKeys df).map (fun k => summaryRow df.cols k (groupRows df k)) }
    else Except.error "KeyError: aggregation columns do not exist"
  else Except.error "Column model_name is required"

/-! ## Rounding lemmas -/

theorem roundHalfEvenZ_eq_of_lt (q : Rat) (n : Int) (h1 : (n : Rat) ≤ q)
    (h2 : q < (n : Rat) + 1/2) : roundHalfEvenZ q = n := by
  have hf : ⌊q⌋ = n := by
    rw [Int.floor_eq_iff]
    refine ⟨h1, by linarith⟩
  unfold roundHalfEvenZ
  rw [hf, if_pos (by linarith)]

theorem roundHalfEvenZ_eq_of_gt (q : Rat) (n : Int) (h1 : (n : Rat) + 1/2 < q)
    (h2 : q < (n : Rat) + 1) : roundHalfEvenZ q = n + 1 := by
  have hf : ⌊q⌋ = n := by
    rw [Int.floor_eq_iff]
    refine ⟨by linarith, by linarith⟩
  unfold roundHalfEvenZ
  rw [hf, if_neg (by linarith), if_pos (by linarith)]

theorem round2_eq_of_lt (q : Rat) (n : Int) (h1 : (n : Rat) ≤ q * 100)
    (h2 : q * 100 < (n : Rat) + 1/2) : round2 q = (n : Rat) / 100 := by
  unfold round2
  rw [roundHalfEvenZ_eq_of_lt (q * 100) n h1 h2]

theorem round2_eq_of_int (q : Rat) (n : Int) (h : q * 100 = (n : Rat)) :
    round2 q = (n : Rat) / 100 :=
  round2_eq_of_lt q n (le_of_eq h.symm) (by rw [h]; linarith)

theorem floor_le_roundHalfEvenZ (q : Rat) : ⌊q⌋ ≤ roundHalfEvenZ q := by
  unfold roundHalfEvenZ
  split
  · exact le_refl _
  · split
    · linarith
    · split
      · exact le_refl _
      · linarith

theorem le_round2 (q : Rat) (n : Int) (h : (n : Rat) / 100 ≤ q) :
    (n : Rat) / 100 ≤ round2 q := by
  have h2 : n ≤ ⌊q * 100⌋ := Int.le_floor.mpr (by linarith)
  have h3 : n ≤ roundHalfEvenZ (q * 100) := le_trans h2 (floor_le_roundHalfEvenZ _)
  have h4 : (n : Rat) ≤ (roundHalfEvenZ (q * 100) : Rat) := by exact_mod_cast h3
  unfold round2
  linarith

/-! ## Spec-side description of the classification (for claim C1) -/

/-- The hallucination score as the spec describes it: the sum of three
    independent contributions (0.4 uncertainty phrase, 0.2 digit,
    0.3 short normalized text), clamped at 1.0. -/
def specScore (t : List Char) : Rat :=
  min ((if contains_uncertainty t then (4 : Rat)/10 else 0)
    + (if has_numeric_claim t then (2 : Rat)/10 else 0)
    + (if t.length < 30 then (3 : Rat)/10 else 0)) 1

/-- The classification as the spec describes it: normalize, score, set
    `confidence = round(1 - score, 2)`, and derive flag/label from the
    0.6 and 0.4 thresholds. -/
def specClassify (s : String) : Int × Rat × String :=
  ( if specScore (pyNormalize s) ≥ 6/10 then 1 else 0,
    round2 (1 - specScore (pyNormalize s)),
    if specScore (pyNormalize s) ≥ 6/10 then "hallucinated"
    else if specScore (pyNormalize s) ≥ 4/10 then "uncertain"
    else "accurate" )

theorem specScore_eq (t : List Char) : specScore t = min (rawScore t) 1 := rfl

/-- Unfolding of `score_response` with its let-bindings inlined. -/
theorem score_response_def (v : Value) :
    score_response v =
      (if min (rawScore (pyNormalize (pyStr v))) 1 ≥ 6/10 then
        ((1 : Int), round2 (1 - min (rawScore (pyNormalize (pyStr v))) 1), "hallucinated")
      else if min (rawScore (pyNormalize (pyStr v))) 1 ≥ 4/10 then
        ((0 : Int), round2 (1 - min (rawScore (pyNormalize (pyStr v))) 1), "uncertain")
      else
        ((0 : Int), round2 (1 - min (rawScore (pyNormalize (pyStr v))) 1), "accurate")) :=
  rfl

/-- Helper: the returned confidence is always `round2 (1 - score)`. -/
theorem score_response_conf (v : Value) :
    (score_response v).2.1
      = round2 (1 - min (rawScore (pyNormalize (pyStr v))) 1) := by
  rw [score_response_def]
  split
  · rfl
  · split <;> rfl

/-- Helper: a text with no uncertainty phrase, no digit, and a short
    normalization is classified ("accurate", confidence 0.7). -/
theorem score_response_short_plain (v : Value)
    (hu : contains_uncertainty (pyNormalize (pyStr v)) = false)
    (hd : has_numeric_claim (pyNormalize (pyStr v)) = false)
    (hl : (pyNormalize (pyStr v)).length < 30) :
    score_response v = (0, 7/10, "accurate") := by
  have hraw : rawScore (pyNormalize (pyStr v)) = 3/10 := by
    unfold rawScore
    rw [hu, hd, if_pos hl]
    norm_num
  have hc : round2 ((1 : Rat) - 3/10) = 7/10 := by
    rw [round2_eq_of_int _ 70 (by norm_num)]
    norm_num
  rw [score_response_def, hraw, min_eq_left (by norm_num : (3 : Rat)/10 ≤ 1),
    if_neg (by norm_num), if_neg (by norm_num), hc]

/-- C1: for every input text, `score_response` normalizes, sums the three
    independent contributions (0.4 uncertainty phrase, 0.2 digit, 0.3
    normalized length under 30), clamps at 1.0, sets
    `confidence_score = round(1 - score, 2)` and maps the score through the
    0.6 / 0.4 thresholds to (flag, label) = (1, "hallucinated"),
    (0, "uncertain") or (0, "accurate"). -/
theorem score_response_meets_spec (s : String) :
    score_response (Value.vStr s) = specClassify s := by
  have e2 : pyStr (Value.vStr s) = s := rfl
  unfold specClassify
  rw [specScore_eq, score_response_def, e2]
  by_cases h1 : min (rawScore (pyNormalize s)) 1 ≥ 6/10
  · simp [h1]
  · by_cases h2 : min (rawScore (pyNormalize s)) 1 ≥ 4/10 <;> simp [h1, h2]

/-- C9: the pre-clamp score is at most 0.9, so the clamp at 1.0 never
    takes effect, and the returned confidence is always at least 0.1 —
    in particular never 0. -/
theorem clamp_never_fires (v : Value) :
    rawScore (pyNormalize (pyStr v)) ≤ 9/10
    ∧ min (rawScore (pyNormalize (pyStr v))) 1 = rawScore (pyNormalize (pyStr v))
    ∧ 1/10 ≤ (score_response v).2.1 := by
  have hb : rawScore (pyNormalize (pyStr v)) ≤ 9/10 := by
    unfold rawScore
    split <;> split <;> split <;> norm_num
  refine ⟨hb, min_eq_left (le_trans hb (by norm_num)), ?_⟩
  rw [score_response_conf, min_eq_left (le_trans hb (by norm_num))]
  have h10 : ((10 : Int) : Rat) / 100 ≤ 1 - rawScore (pyNormalize (pyStr v)) := by
    push_cast
    linarith
  calc (1 : Rat)/10 = ((10 : Int) : Rat)/100 := by norm_num
    _ ≤ round2 (1 - rawScore (pyNormalize (pyStr v))) := le_round2 _ 10 h10

/-- C2 (counterexample): on "Approximately 42" the pre-clamp score is 0.9,
    which does not clamp to 1.0, and the returned confidence is 0.1, not
    0.00 as the claim asserts. -/
theorem scenario_d_counterexample :
    rawScore (pyNormalize "Approximately 42") = 9/10
    ∧ min ((9 : Rat)/10) 1 ≠ 1
    ∧ score_response (Value.vStr "Approximately 42") = (1, 1/10, "hallucinated")
    ∧ (1 : Rat)/10 ≠ 0 := by
  have hraw : rawScore (pyNormalize "Approximately 42") = 9/10 := by
    unfold rawScore
    rw [(by decide : contains_uncertainty (pyNormalize "Approximately 42") = true),
      (by decide : has_numeric_claim (pyNormalize "Approximately 42") = true),
      if_pos (by decide : (pyNormalize "Approximately 42").length < 30)]
    norm_num
  have hc : round2 ((1 : Rat) - 9/10) = 1/10 := by
    rw [round2_eq_of_int _ 10 (by norm_num)]
    norm_num
  have e2 : pyStr (Value.vStr "Approximately 42") = "Approximately 42" := rfl
  refine ⟨hraw, by norm_num [min_eq_left], ?_, by norm_num⟩
  rw [score_response_def, e2, hraw, min_eq_left (by norm_num : (9 : Rat)/10 ≤ 1),
    if_pos (by norm_num), hc]

/-- C2 (amended): on "Approximately 42" all three contributions fire, the
    score is 0.9 (the clamp at 1.0 has no effect), and the result is
    confidence_score = 0.10, hallucination_flag = 1,
    final_label = "hallucinated". -/
theorem scenario_d_amended :
    score_response (Value.vStr "Approximately 42") = (1, 1/10, "hallucinated")
    ∧ contains_uncertainty (pyNormalize "Approximately 42") = true
    ∧ has_numeric_claim (pyNormalize "Approximately 42") = true
    ∧ (pyNormalize "Approximately 42").length < 30
    ∧ rawScore (pyNormalize "Approximately 42") = 9/10 := by
  have hraw : rawScore (pyNormalize "Approximately 42") = 9/10 := by
    unfold rawScore
    rw [(by decide : contains_uncertainty (pyNormalize "Approximately 42") = true),
      (by decide : has_numeric_claim (pyNormalize "Approximately 42") = true),
      if_pos (by decide : (pyNormalize "Approximately 42").length < 30)]
    norm_num
  have hc : round2 ((1 : Rat) - 9/10) = 1/10 := by
    rw [round2_eq_of_int _ 10 (by norm_num)]
    norm_num
  have e2 : pyStr (Value.vStr "Approximately 42") = "Approximately 42" := rfl
  refine ⟨?_, by decide, by decide, by decide, hraw⟩
  rw [score_response_def, e2, hraw, min_eq_left (by norm_num : (9 : Rat)/10 ≤ 1),
    if_pos (by norm_num), hc]

/-- C8: `score_response` is a total function of the input cell (it is
    defined on every `Value`, malformed or missing), and a missing value
    (None or NaN) or empty string is classified exactly like the empty
    string — same flag, same confidence, same label. -/
theorem missing_treated_as_empty (v : Value)
    (h : v = Value.vNone ∨ v = Value.vNaN ∨ v = Value.vStr "") :
    score_response v = score_response (Value.vStr "") := by
  have he : score_response (Value.vStr "") = (0, 7/10, "accurate") :=
    score_response_short_plain _ (by decide) (by decide) (by decide)
  rcases h with h | h | h <;> subst h
  · rw [he, score_response_short_plain _ (by decide) (by decide) (by decide)]
  · rw [he, score_response_short_plain _ (by decide) (by decide) (by decide)]
  · rfl

/-- Witness for C8 at the concrete missing value None. -/
theorem missing_treated_as_empty_witness :
    score_response Value.vNone = score_response (Value.vStr "") :=
  missing_treated_as_empty Value.vNone (Or.inl rfl)

/-! ## DataFrame access lemmas -/

/-- After assigning column `c`, reading `c` gives the assigned value. -/
theorem getCellD_setCell (cols : List String) (c : String) (row : List Value)
    (v : Value) (hlen : row.length = cols.length) :
    getCellD (setColName cols c) (setCell cols c row v) c = v := by
  unfold getCellD setCell setColName
  by_cases h : c ∈ cols
  · rw [if_pos h, if_pos h]
    have hidx : List.indexOf c cols < row.length := by
      rw [hlen]
      exact List.indexOf_lt_length.mpr h
    rw [List.get?_set_eq_of_lt _ hidx]
    rfl
  · rw [if_neg h, if_neg h, List.indexOf_append_of_not_mem h,
      List.indexOf_cons_self, Nat.add_zero, ← hlen, List.get?_concat_length]
    rfl

/-! ## Claim C3: the per-row risk-score formula -/

/-- C3: on a successful `compute_final_score` call, every row's added
    `hallucination_risk_score` equals
    `round((1 - confidence_score) + hallucination_flag * 0.5, 2)`,
    where `confidence_score` and `hallucination_flag` are that row's
    numeric cells. -/
theorem risk_score_formula (df out : DataFrame)
    (hok : compute_final_score df = Except.ok out)
    (i : Nat) (hi : i < df.rows.length)
    (hlen : (df.rows.getD i []).length = df.cols.length)
    (c f : Rat)
    (hc : asRat (getCellD df.cols (df.rows.getD i []) "confidence_score") = some c)
    (hf : asRat (getCellD df.cols (df.rows.getD i []) "hallucination_flag") = some f) :
    getCellD out.cols (out.rows.getD i []) "hallucination_risk_score"
      = Value.vRat (round2 ((1 - c) + f * (1/2))) := by
  unfold compute_final_score at hok
  split at hok
  · injection hok with h2
    subst h2
    have hget : df.rows.get? i ≠ none := by
      rw [Ne, List.get?_eq_none]
      omega
    obtain ⟨x, hx⟩ := Option.ne_none_iff_exists'.mp hget
    have hxd : df.rows.getD i [] = x := by
      rw [List.getD_eq_get?, hx]
      rfl
    rw [hxd] at hlen hc hf
    show getCellD (setColName df.cols "hallucination_risk_score") _ _ = _
    rw [List.getD_eq_get?, List.get?_map, hx, Option.map_some', Option.getD_some,
      getCellD_setCell _ _ _ _ hlen, hc, hf]
  · exact absurd hok (by simp)

/-- The concrete classified frame used by the C3 witness. -/
def dfScored : DataFrame :=
  ⟨["hallucination_flag", "confidence_score", "final_label"],
   [[Value.vInt 1, Value.vRat (2/5), Value.vStr "hallucinated"]]⟩

/-- The payload of a successful batch call (empty frame on error). -/
def okFrame (e : Except String DataFrame) : DataFrame :=
  match e with
  | Except.ok out => out
  | Except.error _ => ⟨[], []⟩

/-- Witness for C3 on a concrete one-row frame. -/
theorem risk_score_formula_witness :
    getCellD (okFrame (compute_final_score dfScored)).cols
        ((okFrame (compute_final_score dfScored)).rows.getD 0 [])
        "hallucination_risk_score"
      = Value.vRat (round2 ((1 - 2/5) + ((1 : Int) : Rat) * (1/2))) :=
  risk_score_formula dfScored (okFrame (compute_final_score dfScored)) rfl 0
    (by decide) rfl (2/5) ((1 : Int) : Rat) rfl rfl

/-! ## Claim C6: batch schema checks fail fast, whole-batch processing -/

/-- C6: each batch operation errors exactly when its required column(s)
    are structurally absent (the checks run before any row is touched),
    and a successful call processes every input row — there is no
    partial-success mode. -/
theorem batch_schema_checks (df : DataFrame) :
    ((∃ e, analyze_dataframe df = Except.error e) ↔ "response_text" ∉ df.cols)
    ∧ (∀ out, analyze_dataframe df = Except.ok out → out.rows.length = df.rows.length)
    ∧ ((∃ e, compute_final_score df = Except.error e)
        ↔ ¬("hallucination_flag" ∈ df.cols ∧ "confidence_score" ∈ df.cols
            ∧ "final_label" ∈ df.cols))
    ∧ (∀ out, compute_final_score df = Except.ok out → out.rows.length = df.rows.length)
    ∧ ((generate_model_summary df = Except.error "Column model_name is required")
        ↔ "model_name" ∉ df.cols) := by
  refine ⟨?_, ?_, ?_, ?_, ?_⟩
  · unfold analyze_dataframe
    by_cases h : "response_text" ∈ df.cols
    · simp [h]
    · simp [h]
  · intro out hout
    unfold analyze_dataframe at hout
    split at hout
    · injection hout with h2
      rw [← h2]
      simp
    · exact absurd hout (by simp)
  · unfold compute_final_score
    by_cases h : "hallucination_flag" ∈ df.cols ∧ "confidence_score" ∈ df.cols
        ∧ "final_label" ∈ df.cols
    · simp [h]
    · simp [h]
  · intro out hout
    unfold compute_final_score at hout
    split at hout
    · injection hout with h2
      rw [← h2]
      simp
    · exact absurd hout (by simp)
  · unfold generate_model_summary
    by_cases h : "model_name" ∈ df.cols
    · rw [if_pos h]
      by_cases h2 : "final_label" ∈ df.cols ∧ "confidence_score" ∈ df.cols
          ∧ "hallucination_risk_score" ∈ df.cols
      · rw [if_pos h2]
        exact ⟨fun he => absurd he (by simp), fun hn => absurd h hn⟩
      · rw [if_neg h2]
        constructor
        · intro he
          injection he with hs
          exact absurd hs (by decide)
        · intro hn
          exact absurd h hn
    · rw [if_neg h]
      exact ⟨fun _ => h, fun _ => rfl⟩

/-- Witness for C6: a frame with no `model_name` column hits the schema
    error of `generate_model_summary`. -/
theorem batch_schema_checks_witness :
    generate_model_summary ⟨["question"], []⟩
      = Except.error "Column model_name is required" :=
  (batch_schema_checks ⟨["question"], []⟩).2.2.2.2.mpr (by decide)

/-! ## Claim C10: the summary schema check covers only model_name -/

/-- A frame with `model_name` but no `confidence_score` column. -/
def dfNoConf : DataFrame :=
  ⟨["model_name", "final_label", "hallucination_risk_score"],
   [[Value.vStr "m", Value.vStr "accurate", Value.vRat 0]]⟩

/-- C10: `generate_model_summary`'s own schema check only covers
    `model_name`: a frame that has `model_name` but lacks
    `confidence_score` passes that check and then fails during
    aggregation with a different error. -/
theorem summary_schema_gap :
    "model_name" ∈ dfNoConf.cols
    ∧ "confidence_score" ∉ dfNoConf.cols
    ∧ generate_model_summary dfNoConf
        = Except.error "KeyError: aggregation columns do not exist"
    ∧ "KeyError: aggregation columns do not exist"
        ≠ "Column model_name is required" := by
  refine ⟨by decide, by decide, ?_, by decide⟩
  unfold generate_model_summary
  rw [if_pos (by decide), if_neg (by decide)]

/-! ## Structure of a successful generate_model_summary call -/

theorem gms_ok_elim (df out : DataFrame)
    (hok : generate_model_summary df = Except.ok out) :
    out.cols = summaryCols
    ∧ out.rows = (groupKeys df).map (fun k => summaryRow df.cols k (groupRows df k)) := by
  unfold generate_model_summary at hok
  split at hok
  · split at hok
    · injection hok with h2
      rw [← h2]
      exact ⟨rfl, rfl⟩
    · exact absurd hok (by simp)
  · exact absurd hok (by simp)

theorem summaryRow_name (cols : List String) (k : Value) (g : List (List Value)) :
    getCellD summaryCols (summaryRow cols k g) "model_name" = k := rfl

theorem summaryRow_total (cols : List String) (k : Value) (g : List (List Value)) :
    getCellD summaryCols (summaryRow cols k g) "total_responses"
      = Value.vInt (totalCount cols g) := rfl

theorem summaryRow_hall (cols : List String) (k : Value) (g : List (List Value)) :
    getCellD summaryCols (summaryRow cols k g) "hallucinated_count"
      = Value.vInt (hallCount cols g) := rfl

theorem summaryRow_unc (cols : List String) (k : Value) (g : List (List Value)) :
    getCellD summaryCols (summaryRow cols k g) "uncertain_count"
      = Value.vInt (uncCount cols g) := rfl

theorem summaryRow_rate (cols : List String) (k : Value) (g : List (List Value)) :
    getCellD summaryCols (summaryRow cols k g) "hallucination_rate"
      = (if totalCount cols g = 0 then Value.vNaN
         else Value.vRat (round2 ((hallCount cols g : Rat) / (totalCount cols g : Rat)))) :=
  rfl

/-- Each list element counted as "hallucinated" or as "uncertain" is a
    distinct non-missing element, so the two counts together stay below
    the non-missing count. -/
theorem hall_add_unc_le_notNA (l : List Value) :
    l.countP (fun v => decide (v = Value.vStr "hallucinated"))
      + l.countP (fun v => decide (v = Value.vStr "uncertain"))
      ≤ l.countP (fun v => !(isNA v)) := by
  induction l with
  | nil => simp
  | cons a l ih =>
    simp only [List.countP_cons]
    have ha : (if decide (a = Value.vStr "hallucinated") = true then 1 else 0)
        + (if decide (a = Value.vStr "uncertain") = true then 1 else 0)
        ≤ (if (!(isNA a)) = true then 1 else 0) := by
      by_cases h1 : a = Value.vStr "hallucinated"
      · subst h1
        decide
      · by_cases h2 : a = Value.vStr "uncertain"
        · subst h2
          decide
        · simp [h1, h2]
    omega

/-! ## Claim C7: hallucinated_count + uncertain_count ≤ total_responses -/

/-- C7: in every summary row, the hallucinated and uncertain counts are
    the stated label counts of that row's model group, and their sum is
    at most total_responses. -/
theorem summary_counts_bounded (df out : DataFrame)
    (hok : generate_model_summary df = Except.ok out)
    (r : List Value) (hr : r ∈ out.rows) :
    getCellD out.cols r "total_responses"
        = Value.vInt (totalCount df.cols (groupRows df (getCellD out.cols r "model_name")))
    ∧ getCellD out.cols r "hallucinated_count"
        = Value.vInt (hallCount df.cols (groupRows df (getCellD out.cols r "model_name")))
    ∧ getCellD out.cols r "uncertain_count"
        = Value.vInt (uncCount df.cols (groupRows df (getCellD out.cols r "model_name")))
    ∧ hallCount df.cols (groupRows df (getCellD out.cols r "model_name"))
        + uncCount df.cols (groupRows df (getCellD out.cols r "model_name"))
        ≤ totalCount df.cols (groupRows df (getCellD out.cols r "model_name")) := by
  obtain ⟨hc, hrows⟩ := gms_ok_elim df out hok
  rw [hrows] at hr
  obtain ⟨k, hk, hkr⟩ := List.mem_map.mp hr
  subst hkr
  rw [hc, summaryRow_name]
  exact ⟨summaryRow_total _ _ _, summaryRow_hall _ _ _, summaryRow_unc _ _ _,
    hall_add_unc_le_notNA _⟩

/-- The concrete scored frame used by the summary witnesses and the C4
    counterexample: model-a has 3 rows with 1 hallucinated, model-b has
    1 uncertain row. -/
def dfSample : DataFrame :=
  ⟨["model_name", "final_label", "confidence_score", "hallucination_risk_score"],
   [[Value.vStr "model-a", Value.vStr "hallucinated", Value.vRat (2/5), Value.vRat (11/10)],
    [Value.vStr "model-a", Value.vStr "accurate", Value.vRat 1, Value.vRat 0],
    [Value.vStr "model-a", Value.vStr "accurate", Value.vRat 1, Value.vRat 0],
    [Value.vStr "model-b", Value.vStr "uncertain", Value.vRat (1/2), Value.vRat (1/2)]]⟩

/-- The summary frame computed from `dfSample`. -/
def outSample : DataFrame := okFrame (generate_model_summary dfSample)

/-- The model-a summary row of `outSample`. -/
def rowSampleA : List Value :=
  summaryRow dfSample.cols (Value.vStr "model-a")
    (groupRows dfSample (Value.vStr "model-a"))

/-- Witness for C7 on `dfSample`: model-a has counts 3 / 1 / 0. -/
theorem summary_counts_bounded_witness :
    getCellD outSample.cols rowSampleA "total_responses" = Value.vInt 3
    ∧ getCellD outSample.cols rowSampleA "hallucinated_count" = Value.vInt 1
    ∧ getCellD outSample.cols rowSampleA "uncertain_count" = Value.vInt 0
    ∧ 1 + 0 ≤ 3 :=
  summary_counts_bounded dfSample outSample rfl rowSampleA
    (List.mem_map_of_mem _ (by decide))

/-! ## Claim C4: hallucination_rate is the rounded quotient -/

/-- C4 (amended): in every summary row, hallucination_rate is
    `round(hallucinated_count / total_responses, 2)` — the quotient
    rounded to 2 decimals (NaN for an empty count), not the exact
    quotient. -/
theorem summary_rate_rounded (df out : DataFrame)
    (hok : generate_model_summary df = Except.ok out)
    (r : List Value) (hr : r ∈ out.rows) :
    getCellD out.cols r "hallucination_rate"
      = (if totalCount df.cols (groupRows df (getCellD out.cols r "model_name")) = 0
         then Value.vNaN
         else Value.vRat (round2
           ((hallCount df.cols (groupRows df (getCellD out.cols r "model_name")) : Rat)
             / (totalCount df.cols (groupRows df (getCellD out.cols r "model_name")) : Rat)))) := by
  obtain ⟨hc, hrows⟩ := gms_ok_elim df out hok
  rw [hrows] at hr
  obtain ⟨k, hk, hkr⟩ := List.mem_map.mp hr
  subst hkr
  rw [hc, summaryRow_name]
  exact summaryRow_rate _ _ _

/-- Witness for C4's amended statement on `dfSample`. -/
theorem summary_rate_rounded_witness :
    getCellD outSample.cols rowSampleA "hallucination_rate"
      = (if (3 : Nat) = 0 then Value.vNaN
         else Value.vRat (round2 (((1 : Nat) : Rat) / ((3 : Nat) : Rat)))) :=
  summary_rate_rounded dfSample outSample rfl rowSampleA
    (List.mem_map_of_mem _ (by decide))

/-- C4 (counterexample): on `dfSample`, model-a has hallucinated_count 1
    and total_responses 3, but the stored hallucination_rate is 0.33,
    which differs from the exact quotient 1/3. -/
theorem rate_not_exact_counterexample :
    getCellD outSample.cols rowSampleA "hallucinated_count" = Value.vInt 1
    ∧ getCellD outSample.cols rowSampleA "total_responses" = Value.vInt 3
    ∧ getCellD outSample.cols rowSampleA "hallucination_rate" = Value.vRat (33/100)
    ∧ (33 : Rat)/100 ≠ ((1 : Nat) : Rat) / ((3 : Nat) : Rat) := by
  refine ⟨rfl, rfl, ?_, by push_cast; norm_num⟩
  rw [show outSample.cols = summaryCols from rfl]
  unfold rowSampleA
  rw [summaryRow_rate, if_neg (by decide),
    show hallCount dfSample.cols (groupRows dfSample (Value.vStr "model-a")) = 1 from by decide,
    show totalCount dfSample.cols (groupRows dfSample (Value.vStr "model-a")) = 3 from by decide]
  congr 1
  rw [show ((1 : Nat) : Rat) / ((3 : Nat) : Rat) = 1/3 from by push_cast; norm_num,
    round2_eq_of_lt _ 33 (by norm_num) (by norm_num)]
  norm_num

/-! ## Claim C5: one summary per distinct model, with the group counts -/

/-- Counting labels over one model group equals counting, over the whole
    frame, the rows of that model whose label satisfies the predicate. -/
theorem count_group_label (df : DataFrame) (k : Value) (p : Value → Bool) :
    (labelsOf df.cols (groupRows df k)).countP p
      = (df.rows.filter (fun rr =>
          decide (getCellD df.cols rr "model_name" = k)
          && p (getCellD df.cols rr "final_label"))).length := by
  unfold labelsOf groupRows
  rw [List.countP_map, List.countP_filter, ← List.countP_eq_length_filter]
  congr 1
  funext a
  simp [Function.comp, Bool.and_comm]

/-- C5: a successful summary over rows with non-missing model names and
    labels has pairwise-distinct model names, its model names are exactly
    those present in the input, and each row's total / hallucinated /
    uncertain cells count that model's rows and matching labels. -/
theorem summary_one_per_model (df out : DataFrame)
    (hok : generate_model_summary df = Except.ok out)
    (hname : ∀ r ∈ df.rows, isNA (getCellD df.cols r "model_name") = false)
    (hlab : ∀ r ∈ df.rows, isNA (getCellD df.cols r "final_label") = false) :
    (out.rows.map (fun r => getCellD out.cols r "model_name")).Nodup
    ∧ (∀ v, v ∈ out.rows.map (fun r => getCellD out.cols r "model_name")
        ↔ v ∈ df.rows.map (fun r => getCellD df.cols r "model_name"))
    ∧ (∀ r ∈ out.rows,
        getCellD out.cols r "total_responses"
          = Value.vInt ((df.rows.filter (fun rr =>
              decide (getCellD df.cols rr "model_name"
                = getCellD out.cols r "model_name"))).length)
        ∧ getCellD out.cols r "hallucinated_count"
          = Value.vInt ((df.rows.filter (fun rr =>
              decide (getCellD df.cols rr "model_name" = getCellD out.cols r "model_name")
              && decide (getCellD df.cols rr "final_label"
                  = Value.vStr "hallucinated"))).length)
        ∧ getCellD out.cols r "uncertain_count"
          = Value.vInt ((df.rows.filter (fun rr =>
              decide (getCellD df.cols rr "model_name" = getCellD out.cols r "model_name")
              && decide (getCellD df.cols rr "final_label"
                  = Value.vStr "uncertain"))).length)) := by
  obtain ⟨hc, hrows⟩ := gms_ok_elim df out hok
  have hmap : out.rows.map (fun r => getCellD out.cols r "model_name") = groupKeys df := by
    rw [hrows, hc, List.map_map]
    have hcomp : ((fun r => getCellD summaryCols r "model_name")
        ∘ (fun k => summaryRow df.cols k (groupRows df k))) = id := by
      funext k
      exact summaryRow_name df.cols k (groupRows df k)
    rw [hcomp, List.map_id]
  refine ⟨?_, ?_, ?_⟩
  · rw [hmap]
    exact List.nodup_dedup _
  · intro v
    rw [hmap]
    unfold groupKeys modelCol
    constructor
    · intro hv
      exact (List.mem_filter.mp (List.mem_dedup.mp hv)).1
    · intro hv
      apply List.mem_dedup.mpr
      apply List.mem_filter.mpr
      refine ⟨hv, ?_⟩
      obtain ⟨rr, hrr, hvr⟩ := List.mem_map.mp hv
      rw [← hvr, hname rr hrr]
      rfl
  · intro r hr
    rw [hrows] at hr
    obtain ⟨k, hk, hkr⟩ := List.mem_map.mp hr
    subst hkr
    rw [hc, summaryRow_name]
    refine ⟨?_, ?_, ?_⟩
    · rw [summaryRow_total]
      congr 1
      have h1 : totalCount df.cols (groupRows df k)
          = (df.rows.filter (fun rr =>
              decide (getCellD df.cols rr "model_name" = k)
              && !(isNA (getCellD df.cols rr "final_label")))).length :=
        count_group_label df k (fun v => !(isNA v))
      have h2 : (df.rows.filter (fun rr =>
              decide (getCellD df.cols rr "model_name" = k)
              && !(isNA (getCellD df.cols rr "final_label")))).length
          = (df.rows.filter (fun rr =>
              decide (getCellD df.cols rr "model_name" = k))).length := by
        congr 1
        apply List.filter_congr
        intro a ha
        rw [hlab a ha]
        simp
      exact_mod_cast h1.trans h2
    · rw [summaryRow_hall]
      congr 1
      exact_mod_cast count_group_label df k
        (fun v => decide (v = Value.vStr "hallucinated"))
    · rw [summaryRow_unc]
      congr 1
      exact_mod_cast count_group_label df k
        (fun v => decide (v = Value.vStr "uncertain"))

/-- Witness for C5: the model names of `outSample` are pairwise
    distinct. -/
theorem summary_one_per_model_witness :
    (outSample.rows.map (fun r => getCellD outSample.cols r "model_name")).Nodup :=
  (summary_one_per_model dfSample outSample rfl (by decide) (by decide)).1

end Tracker
